import Mathlib

/-!
Shallow embedding of the media-pipeline core of the WhoWatchesTheSonyWatchman
repository: the AVI demuxer (components/video, the AVI demuxer C file), the MJPEG decode
stage (components/video/mjpeg_decoder.c), the video player state machine
(the first, AVI-parser-backed implementation in the video player source) and
the audio feed volume path (the audio player source).

C stdio streams are modelled as a byte list plus a cursor and an end-of-file
indicator.  All uint32 arithmetic of the source is carried out on Nat with an
explicit modulus where the C computation can wrap.  Loops of the source are
modelled as fuel-indexed recursive functions; the public entry points supply
fuel that dominates the number of iterations any run can take, and every
theorem about a loop is proved for all fuel values, conditioned on the
outcome the claim speaks about.
-/

set_option maxRecDepth 100000
set_option maxHeartbeats 2000000

namespace WatchmanAVI

/-- Two to the power 32, the modulus of uint32 arithmetic in the C source. -/
def U32 : Nat := 4294967296

/-- Model of a C stdio stream.  The byte content of the backing file is a
single natural number read as a little-endian base-256 byte string (byte i
of the file is data / 256 ^ i % 256), together with the byte length of the
file, the cursor position, and the end-of-file indicator.  fread past the
end returns a short count and raises the indicator; fseek clears it. -/
structure CFile where
  data : Nat
  size : Nat
  pos : Nat
  eof : Bool
deriving DecidableEq

/-- Models fread(buf, 1, n, f): the count of bytes actually obtained, those
bytes as a little-endian base-256 string, and the advanced stream.  The
end-of-file indicator is raised exactly when fewer than n bytes were
available, as in stdio. -/
def fread (f : CFile) (n : Nat) : Nat × Nat × CFile :=
  let k := min n (f.size - f.pos)
  (k, f.data / 256 ^ f.pos % 256 ^ k,
    ⟨f.data, f.size, f.pos + k, f.eof || decide (k < n)⟩)

/-- Models fseek(f, n, SEEK_CUR) for a nonnegative offset (the source only
seeks forward; offsets fit a 32-bit long for the files considered).  fseek
clears the end-of-file indicator. -/
def fseekCur (f : CFile) (n : Nat) : CFile := ⟨f.data, f.size, f.pos + n, false⟩

/-- Models fseek(f, n, SEEK_SET); fseek clears the end-of-file indicator. -/
def fseekSet (f : CFile) (n : Nat) : CFile := ⟨f.data, f.size, n, false⟩

/-- Models read_le32: reads four bytes, returning 0 on a short read.  The
little-endian assembly b0 + 256 b1 + 65536 b2 + 16777216 b3 of the source
is exactly the value of the four-byte base-256 string fread returns. -/
def read_le32 (f : CFile) : Nat × CFile :=
  let r := fread f 4
  (if r.1 = 4 then r.2.1 else 0, r.2.2)

/-- Models read_le16: reads two bytes, returning 0 on a short read. -/
def read_le16 (f : CFile) : Nat × CFile :=
  let r := fread f 2
  (if r.1 = 2 then r.2.1 else 0, r.2.2)

/-- Models read_fourcc, which is read_le32 in the source. -/
def read_fourcc (f : CFile) : Nat × CFile := read_le32 f

/-- The esp_err_t values returned by the functions modelled here. -/
inductive EspErr where
  | ok
  | fail
  | invalidArg
  | noMem
  | notFound
  | invalidSize
  | invalidState
  | notSupported
deriving DecidableEq

def FOURCC_RIFF : Nat := 0x46464952
def FOURCC_AVI : Nat := 0x20495641
def FOURCC_LIST : Nat := 0x5453494C
def FOURCC_MOVI : Nat := 0x69766F6D
def FOURCC_AVIH : Nat := 0x68697661
def FOURCC_STRH : Nat := 0x68727473
def FOURCC_STRF : Nat := 0x66727473
def FOURCC_VIDS : Nat := 0x73646976
def FOURCC_AUDS : Nat := 0x73647561

/-- avi_main_header_t. -/
structure AviMainHeader where
  micro_sec_per_frame : Nat
  max_bytes_per_sec : Nat
  total_frames : Nat
  streams : Nat
  suggested_buffer_size : Nat
  width : Nat
  height : Nat
deriving DecidableEq

/-- avi_video_info_t (width, height and bit_count are uint16 in the header). -/
structure AviVideoInfo where
  width : Nat
  height : Nat
  bit_count : Nat
  compression : Nat
  found : Bool
deriving DecidableEq

/-- avi_audio_info_t. -/
structure AviAudioInfo where
  format_tag : Nat
  channels : Nat
  samples_per_sec : Nat
  avg_bytes_per_sec : Nat
  block_align : Nat
  bits_per_sample : Nat
  found : Bool
deriving DecidableEq

/-- mjpeg_frame_t: the raw frame bytes (as a little-endian base-256 byte
string), declared size, sequential index and the derived presentation
timestamp. -/
structure MjpegFrame where
  data : Nat
  size : Nat
  frame_num : Nat
  timestamp_ms : Nat
deriving DecidableEq

/-- avi_parser_t.  The FILE pointer of the source is modelled as the CFile
stream plus a file_open flag standing for the pointer being non-NULL. -/
structure AviParser where
  file : CFile
  file_open : Bool
  main_header : AviMainHeader
  video_info : AviVideoInfo
  audio_info : AviAudioInfo
  movi_offset : Nat
  movi_size : Nat
  current_frame : Nat
  total_frames : Nat
  initialized : Bool
deriving DecidableEq

/-- The all-zero parser produced by memset in avi_parser_open. -/
def zeroAviParser : AviParser :=
  { file := ⟨0, 0, 0, false⟩
    file_open := false
    main_header := ⟨0, 0, 0, 0, 0, 0, 0⟩
    video_info := ⟨0, 0, 0, 0, false⟩
    audio_info := ⟨0, 0, 0, 0, 0, 0, false⟩
    movi_offset := 0
    movi_size := 0
    current_frame := 0
    total_frames := 0
    initialized := false }

/-- parse_avih: reads the main AVI header fields; the source reads 40 bytes
of fields and then skips size - 48 bytes when size exceeds 48. -/
def parse_avih (p : AviParser) (size : Nat) : AviParser :=
  let r1 := read_le32 p.file
  let r2 := read_le32 r1.2
  let f := fseekCur r2.2 4
  let f := fseekCur f 4
  let r3 := read_le32 f
  let f := fseekCur r3.2 4
  let r4 := read_le32 f
  let r5 := read_le32 r4.2
  let r6 := read_le32 r5.2
  let r7 := read_le32 r6.2
  let f := if 48 < size then fseekCur r7.2 (size - 48) else r7.2
  { p with
    file := f
    main_header := ⟨r1.1, r2.1, r3.1, r4.1, r5.1, r6.1, r7.1⟩
    total_frames := r3.1 }

/-- parse_strh: reads the stream header; the only stored effect is the
audio_info.found flag when the stream type is auds. -/
def parse_strh (p : AviParser) (size : Nat) : AviParser :=
  let r1 := read_fourcc p.file
  let r2 := read_fourcc r1.2
  let f := fseekCur r2.2 4
  let f := fseekCur f 2
  let f := fseekCur f 2
  let f := fseekCur f 4
  let r3 := read_le32 f
  let r4 := read_le32 r3.2
  let r5 := read_le32 r4.2
  let r6 := read_le32 r5.2
  let r7 := read_le32 r6.2
  let r8 := read_le32 r7.2
  let r9 := read_le32 r8.2
  let f := if 48 < size then fseekCur r9.2 (size - 48) else r9.2
  let ai := if r1.1 = FOURCC_AUDS then { p.audio_info with found := true } else p.audio_info
  { p with file := f, audio_info := ai }

/-- parse_strf_video: video stream format; width, height land in uint16
fields, hence the modulus. -/
def parse_strf_video (p : AviParser) (size : Nat) : AviParser :=
  let f := fseekCur p.file 4
  let rw := read_le32 f
  let rh := read_le32 rw.2
  let f := fseekCur rh.2 2
  let rb := read_le16 f
  let rc := read_fourcc rb.2
  let f := if 20 < size then fseekCur rc.2 (size - 20) else rc.2
  { p with
    file := f
    video_info := ⟨rw.1 % 65536, rh.1 % 65536, rb.1, rc.1, true⟩ }

/-- parse_strf_audio: audio stream format fields. -/
def parse_strf_audio (p : AviParser) (size : Nat) : AviParser :=
  let r1 := read_le16 p.file
  let r2 := read_le16 r1.2
  let r3 := read_le32 r2.2
  let r4 := read_le32 r3.2
  let r5 := read_le16 r4.2
  let r6 := read_le16 r5.2
  let f := if 16 < size then fseekCur r6.2 (size - 16) else r6.2
  { p with
    file := f
    audio_info := { p.audio_info with
      format_tag := r1.1, channels := r2.1, samples_per_sec := r3.1
      avg_bytes_per_sec := r4.1, block_align := r5.1, bits_per_sample := r6.1 } }

/-- Subtraction in uint32 arithmetic, for quantities below 2 to the 32. -/
def sub32 (a b : Nat) : Nat := (a + U32 - b) % U32

mutual

/-- parse_list of the demuxer source: reads the list type; the movi list records
the payload offset and size, any other list walks its nested chunks. -/
def parse_list (fuel : Nat) (p : AviParser) (list_size : Nat) : AviParser :=
  match fuel with
  | 0 => p
  | fuel + 1 =>
    let r := read_fourcc p.file
    let p := { p with file := r.2 }
    if r.1 = FOURCC_MOVI then
      { p with movi_offset := p.file.pos, movi_size := sub32 list_size 4 }
    else
      parse_list_loop fuel p 4 (sub32 list_size 4)

/-- The chunk-walking while loop inside parse_list; bytes_read is a uint32
in the source, so every increment is taken modulo 2 to the 32. -/
def parse_list_loop (fuel : Nat) (p : AviParser) (bytes_read bound : Nat) : AviParser :=
  match fuel with
  | 0 => p
  | fuel + 1 =>
    if bytes_read < bound then
      let r1 := read_fourcc p.file
      let r2 := read_le32 r1.2
      let size := r2.1
      let p := { p with file := r2.2 }
      let br := (bytes_read + 8) % U32
      let p :=
        if r1.1 = FOURCC_AVIH then parse_avih p size
        else if r1.1 = FOURCC_STRH then parse_strh p size
        else if r1.1 = FOURCC_STRF then
          (if p.video_info.found then parse_strf_video p size else parse_strf_audio p size)
        else if r1.1 = FOURCC_LIST then parse_list fuel p size
        else { p with file := fseekCur p.file size }
      let br := (br + size) % U32
      if size % 2 = 1 then
        parse_list_loop fuel { p with file := fseekCur p.file 1 } ((br + 1) % U32) bound
      else
        parse_list_loop fuel p br bound
    else p

end

/-- The chunk-scanning while loop of parse_avi_header: reads tag and size,
recurses into LIST chunks, skips everything else, stops at end of file or
once the movi offset has been recorded.  The final movi check of the source
follows the loop. -/
def header_loop (fuel : Nat) (p : AviParser) : EspErr × AviParser :=
  match fuel with
  | 0 => if p.movi_offset = 0 then (EspErr.fail, p) else (EspErr.ok, p)
  | fuel + 1 =>
    if p.file.eof then
      (if p.movi_offset = 0 then (EspErr.fail, p) else (EspErr.ok, p))
    else
      let r1 := read_fourcc p.file
      if r1.2.eof then
        (if p.movi_offset = 0 then (EspErr.fail, { p with file := r1.2 })
         else (EspErr.ok, { p with file := r1.2 }))
      else
        let r2 := read_le32 r1.2
        let size := r2.1
        let p := { p with file := r2.2 }
        let p :=
          if r1.1 = FOURCC_LIST then parse_list fuel p size
          else { p with file := fseekCur p.file size }
        let p := if size % 2 = 1 then { p with file := fseekCur p.file 1 } else p
        if p.movi_offset ≠ 0 then (EspErr.ok, p) else header_loop fuel p

/-- parse_avi_header: checks the RIFF envelope tag and the nested AVI format
tag, then walks top-level chunks until the movi list has been located.  A
tag mismatch yields ESP_ERR_INVALID_ARG, a missing movi list ESP_FAIL. -/
def parse_avi_header (fuel : Nat) (p : AviParser) : EspErr × AviParser :=
  let r1 := read_fourcc p.file
  if r1.1 ≠ FOURCC_RIFF then (EspErr.invalidArg, { p with file := r1.2 })
  else
    let r2 := read_le32 r1.2
    let r3 := read_fourcc r2.2
    if r3.1 ≠ FOURCC_AVI then (EspErr.invalidArg, { p with file := r3.2 })
    else header_loop fuel { p with file := r3.2 }

/-- Encodes a byte list as the little-endian base-256 byte string of a
stream; each entry is reduced to a byte as a uint8 array would be. -/
def bytesToNat : List Nat → Nat
  | [] => 0
  | b :: t => b % 256 + 256 * bytesToNat t

/-- Models opening the stream behind a path: fopen success yields a fresh
stream over the file content.  The fopen-failure path of the source (return
ESP_FAIL, no parse) is not exercised by any claim and is not modelled. -/
def fopenContent (content : List Nat) : CFile :=
  ⟨bytesToNat content, content.length, 0, false⟩

/-- avi_parser_open: zeroes the parser, opens the stream, parses the header
structure; on parse failure the stream is closed (file_open false, the FILE
pointer cleared) and the error returned; on success the cursor is placed at
the movi payload and the parser marked initialized. -/
def avi_parser_open (content : List Nat) : EspErr × AviParser :=
  let p0 := { zeroAviParser with file := fopenContent content, file_open := true }
  let r := parse_avi_header (content.length + 2) p0
  if r.1 ≠ EspErr.ok then (r.1, { r.2 with file_open := false })
  else
    (EspErr.ok, { r.2 with
      file := fseekSet r.2.file r.2.movi_offset
      current_frame := 0
      initialized := true })

/-- avi_parser_close: closes and clears the stream, resets initialized. -/
def avi_parser_close (p : AviParser) : AviParser :=
  { p with file_open := false, initialized := false }

/-- The chunk scan of avi_parser_read_video_frame.  A chunk is taken as a
video chunk when the low 16 bits of its fourcc (the first two tag bytes in
file order) are 0x6364 or 0x6264, exactly as the source tests; on a match
the declared size is allocated and read (a short read is ESP_FAIL), the
frame metadata is filled from the current frame counter, the counter is
incremented, and an odd size is followed by one pad byte.  All other chunks
are skipped by their declared size plus padding. -/
def read_video_frame_loop (fuel : Nat) (p : AviParser) :
    EspErr × Option MjpegFrame × AviParser :=
  match fuel with
  | 0 => (EspErr.notFound, none, p)
  | fuel + 1 =>
    if p.file.eof then (EspErr.notFound, none, p)
    else
      let r1 := read_fourcc p.file
      if r1.2.eof then (EspErr.notFound, none, { p with file := r1.2 })
      else
        let r2 := read_le32 r1.2
        let size := r2.1
        if r1.1 % 65536 = 0x6364 ∨ r1.1 % 65536 = 0x6264 then
          let fr := fread r2.2 size
          if fr.1 = size then
            let frame : MjpegFrame :=
              ⟨fr.2.1, size, p.current_frame,
                p.current_frame * p.main_header.micro_sec_per_frame % U32 / 1000⟩
            let f2 := if size % 2 = 1 then fseekCur fr.2.2 1 else fr.2.2
            (EspErr.ok, some frame,
              { p with file := f2, current_frame := (p.current_frame + 1) % U32 })
          else (EspErr.fail, none, { p with file := fr.2.2 })
        else
          let f := fseekCur r2.2 size
          let f2 := if size % 2 = 1 then fseekCur f 1 else f
          read_video_frame_loop fuel { p with file := f2 }

/-- avi_parser_read_video_frame: rejects an uninitialized parser, otherwise
scans for the next video chunk.  The fuel dominates the iteration count of
any run of the C loop, since every iteration advances the cursor by at
least four bytes or returns. -/
def avi_parser_read_video_frame (p : AviParser) :
    EspErr × Option MjpegFrame × AviParser :=
  if p.initialized then read_video_frame_loop (p.file.size + 2) p
  else (EspErr.invalidArg, none, p)

/-- The chunk scan of avi_parser_read_audio_chunk.  A chunk is an audio
chunk when the low 16 bits of its fourcc are 0x6277, as the source tests;
on a match min(size, max_size) bytes are read into the start of the caller
buffer (replacing its low-order bytes in the base-256 encoding), the
remainder of an oversized chunk is skipped with fseek, and an odd declared
size is followed by one pad byte.  Returns the error code, the count stored
through bytes_read, the caller buffer and the parser. -/
def read_audio_chunk_loop (fuel : Nat) (p : AviParser) (buf : Nat)
    (maxSize : Nat) : EspErr × Nat × Nat × AviParser :=
  match fuel with
  | 0 => (EspErr.notFound, 0, buf, p)
  | fuel + 1 =>
    if p.file.eof then (EspErr.notFound, 0, buf, p)
    else
      let r1 := read_fourcc p.file
      if r1.2.eof then (EspErr.notFound, 0, buf, { p with file := r1.2 })
      else
        let r2 := read_le32 r1.2
        let size := r2.1
        if r1.1 % 65536 = 0x6277 then
          let fr := fread r2.2 (if size < maxSize then size else maxSize)
          let buf2 := fr.2.1 + buf / 256 ^ fr.1 * 256 ^ fr.1
          let f := if maxSize < size then fseekCur fr.2.2 (size - maxSize) else fr.2.2
          let f2 := if size % 2 = 1 then fseekCur f 1 else f
          (EspErr.ok, fr.1, buf2, { p with file := f2 })
        else
          let f := fseekCur r2.2 size
          let f2 := if size % 2 = 1 then fseekCur f 1 else f
          read_audio_chunk_loop fuel { p with file := f2 } buf maxSize

/-- avi_parser_read_audio_chunk: rejects an uninitialized parser, otherwise
scans for the next audio chunk. -/
def avi_parser_read_audio_chunk (p : AviParser) (buf : Nat) (maxSize : Nat) :
    EspErr × Nat × Nat × AviParser :=
  if p.initialized then read_audio_chunk_loop (p.file.size + 2) p buf maxSize
  else (EspErr.invalidArg, 0, buf, p)

/-- The skip loop of avi_parser_seek: while the current frame counter is
below the target, read and discard one video frame; a failed read aborts
with ESP_FAIL.  The parser state on abort is the state the failed read left
behind, as the C loop mutates the parser in place. -/
def seek_loop (fuel : Nat) (p : AviParser) (target : Nat) : EspErr × AviParser :=
  match fuel with
  | 0 => (EspErr.fail, p)
  | fuel + 1 =>
    if p.current_frame < target then
      if (avi_parser_read_video_frame p).1 = EspErr.ok then
        seek_loop fuel (avi_parser_read_video_frame p).2.2 target
      else (EspErr.fail, (avi_parser_read_video_frame p).2.2)
    else (EspErr.ok, p)

/-- avi_parser_seek: rejects an uninitialized parser, otherwise rewinds the
cursor to the movi payload start, resets the frame counter and skips video
chunks forward until the target frame index is reached.  The fuel equals
the iteration count of the C loop plus the final check. -/
def avi_parser_seek (p : AviParser) (frame_num : Nat) : EspErr × AviParser :=
  if p.initialized then
    seek_loop (frame_num + 1)
      { p with file := fseekSet p.file p.movi_offset, current_frame := 0 } frame_num
  else (EspErr.invalidArg, p)

/-- avi_parser_get_current_frame for a non-NULL parser. -/
def avi_parser_get_current_frame (p : AviParser) : Nat := p.current_frame

/-- avi_parser_get_total_frames for a non-NULL parser. -/
def avi_parser_get_total_frames (p : AviParser) : Nat := p.total_frames

/-- avi_parser_get_fps returns the float 1000000.0f / micro_sec_per_frame,
or 0.0f when the frame interval is zero.  The ideal rational value of that
quotient is used here; where a claim depends on the numeric value, the
single-precision rounding is bounded in a comment at the point of use. -/
def avi_parser_get_fps (p : AviParser) : ℚ :=
  if p.main_header.micro_sec_per_frame = 0 then 0
  else 1000000 / (p.main_header.micro_sec_per_frame : ℚ)

/-- frame_buffer_t of display.h: pixel data, dimensions and the readiness
flag used for the double-buffer hand-off. -/
structure FrameBuffer where
  buffer : List Nat
  width : Nat
  height : Nat
  ready : Bool
deriving DecidableEq

/-- mjpeg_decoder_s: the declared maximum dimensions and the last decode
duration in milliseconds. -/
structure MjpegDecoder where
  max_width : Nat
  max_height : Nat
  last_decode_ms : Nat
deriving DecidableEq

/-- mjpeg_decoder_decode_frame (the path with the JPEG component present).
Modelled from the spec: jpeg_decoder_get_info and jpeg_decoder_process live
in the external ESP-IDF JPEG component, not in this repository, so the
header parse is an abstract function getInfo from the frame bytes to the
intrinsic dimensions (none meaning a malformed header, returned as the
ESP_FAIL class of errors), and the pixel-producing decode is an abstract
function process from frame bytes and current pixels to an error code and
new pixels.  The wall-clock decode duration is the abstract input elapsed.
The dimension check against the decoder maxima, the order of operations and
the untouched destination on the early error returns follow the source. -/
def mjpeg_decoder_decode_frame
    (getInfo : Nat → Option (Nat × Nat))
    (process : Nat → List Nat → EspErr × List Nat)
    (elapsed : Nat) (d : MjpegDecoder) (frame : MjpegFrame) (fb : FrameBuffer) :
    EspErr × FrameBuffer × Option (Nat × Nat) × MjpegDecoder :=
  match getInfo frame.data with
  | none => (EspErr.fail, fb, none, d)
  | some (w, h) =>
    if d.max_width < w ∨ d.max_height < h then
      (EspErr.invalidSize, fb, none, d)
    else
      let r := process frame.data fb.buffer
      if r.1 ≠ EspErr.ok then (r.1, { fb with buffer := r.2 }, none, d)
      else
        (EspErr.ok, { fb with buffer := r.2 }, some (w, h),
          { d with last_decode_ms := elapsed })

/-- Saturating clamp to the int16 range, as in apply_volume. -/
def clamp16 (x : Int) : Int :=
  if 32767 < x then 32767 else if x < -32768 then -32768 else x

/-- apply_volume of the audio player: no scaling at or above volume 100.
Below 100, the source computes scale = volume * 65536 / 100 as uint32 and
then sample = (sample * scale) >> 16 with sample an int32: by the usual
arithmetic conversions the signed operand is converted to unsigned, the
multiplication wraps modulo 2 to the 32, and the shift is a logical shift.
The shifted value is therefore the non-negative remainder of the product
modulo 2 to the 32 divided by 65536 — a value in [0, 65535] — which the
clamp then caps at 32767 (the lower clamp can never fire).  In particular
every negative sample with a non-zero scale saturates to 32767. -/
def apply_volume (volume : Nat) (samples : List Int) : List Int :=
  if 100 ≤ volume then samples
  else
    let scale : Int := (volume * 65536 / 100 : Nat)
    samples.map (fun s => clamp16 (s * scale % 4294967296 / 65536))

/-- audio_state_t. -/
inductive AudioState where
  | stopped
  | playing
  | paused
deriving DecidableEq

/-- audio_player_s, restricted to the fields the write path reads. -/
structure AudioPlayer where
  state : AudioState
  volume : Nat
  bits_per_sample : Nat
deriving DecidableEq

/-- audio_player_write: rejected unless playing; with volume below 100 on
16-bit samples the scaled copy is sent to the I2S sink, otherwise the data
is sent unchanged.  The result carries the sample list handed to the sink
(the temporary-copy allocation of the source is assumed to succeed; its
failure path writes the unscaled data). -/
def audio_player_write (pl : AudioPlayer) (samples : List Int) :
    EspErr × Option (List Int) :=
  if pl.state ≠ AudioState.playing then (EspErr.invalidState, none)
  else if pl.volume < 100 ∧ pl.bits_per_sample = 16 then
    (EspErr.ok, some (apply_volume pl.volume samples))
  else (EspErr.ok, some samples)

/-- video_state_t. -/
inductive VideoState where
  | stopped
  | playing
  | paused
  | error
deriving DecidableEq

/-- video_info_t; the path string is not modelled (no claim reads it). -/
structure VideoInfo where
  width : Nat
  height : Nat
  fps : Nat
  frame_count : Nat
  duration_sec : Nat
deriving DecidableEq

/-- video_player_s of the AVI-parser-backed implementation, restricted to
the fields the modelled operations touch (decoder handle, callbacks and the
task handle have no bearing on any claim). -/
structure VideoPlayer where
  state : VideoState
  info : VideoInfo
  avi_demux : AviParser
  frame_buffer : FrameBuffer × FrameBuffer
  current_buffer : Nat
  current_frame : Nat
  frame_time_us : Nat
deriving DecidableEq

/-- display_alloc_frame_buffer: a zeroed RGB565 buffer, not yet ready. -/
def display_alloc_frame_buffer (w h : Nat) : FrameBuffer :=
  ⟨List.replicate (w * h) 0, w, h, false⟩

/-- video_player_create: zeroed player in the Stopped state with two
240 by 240 frame buffers, as in the source. -/
def video_player_create : VideoPlayer :=
  { state := VideoState.stopped
    info := ⟨0, 0, 0, 0, 0⟩
    avi_demux := zeroAviParser
    frame_buffer := (display_alloc_frame_buffer 240 240, display_alloc_frame_buffer 240 240)
    current_buffer := 0
    current_frame := 0
    frame_time_us := 0 }

/-- video_player_close: closes the embedded AVI parser and resets the
current frame index; the state field is not touched. -/
def video_player_close (pl : VideoPlayer) : VideoPlayer :=
  { pl with avi_demux := avi_parser_close pl.avi_demux, current_frame := 0 }

/-- The uint16 cast of the float avi_parser_get_fps returns, modelled as
the floor of the ideal rational quotient (the Nat division) reduced modulo
65536.  The C cast truncates the single-precision value of
1000000.0f / micro_sec_per_frame toward zero; for the frame intervals any
claim evaluates (66667), the quotient 14.999775... lies hundreds of ulps
below 15, so the truncated float and the rational floor agree. -/
def fps_cast (p : AviParser) : Nat :=
  if p.main_header.micro_sec_per_frame = 0 then 0
  else 1000000 / p.main_header.micro_sec_per_frame % 65536

/-- video_player_open of the AVI-parser-backed implementation: closes any
existing container, opens the new one in place (on failure the parser keeps
the failed-open state and the error is returned), copies the header-derived
info, derives duration from the pre-default fps, substitutes the default 15
fps when the parser reported zero, and resets the frame index.  The state
field is never written. -/
def video_player_open (pl : VideoPlayer) (content : List Nat) : EspErr × VideoPlayer :=
  let pl := video_player_close pl
  let r := avi_parser_open content
  if r.1 ≠ EspErr.ok then (r.1, { pl with avi_demux := r.2 })
  else
    let fps := fps_cast r.2
    let info : VideoInfo :=
      { width := r.2.video_info.width
        height := r.2.video_info.height
        fps := fps
        frame_count := avi_parser_get_total_frames r.2
        duration_sec := avi_parser_get_total_frames r.2 / (if 0 < fps then fps else 15) }
    let info := if info.fps = 0 then { info with fps := 15 } else info
    (EspErr.ok, { pl with
      avi_demux := r.2
      info := info
      frame_time_us := 1000000 / info.fps
      current_frame := 0 })

/-- video_player_pause: only a Playing player changes, and only its state
field, to Paused; every other field is untouched. -/
def video_player_pause (pl : VideoPlayer) : EspErr × VideoPlayer :=
  if pl.state = VideoState.playing then
    (EspErr.ok, { pl with state := VideoState.paused })
  else (EspErr.ok, pl)

/-- video_player_get_state; a NULL player (none) yields the Error state. -/
def video_player_get_state (o : Option VideoPlayer) : VideoState :=
  match o with
  | none => VideoState.error
  | some pl => pl.state

/-- video_player_get_info; a NULL player is rejected, leaving the output
structure unwritten. -/
def video_player_get_info (o : Option VideoPlayer) : EspErr × Option VideoInfo :=
  match o with
  | none => (EspErr.invalidArg, none)
  | some pl => (EspErr.ok, some pl.info)

/-- video_player_get_current_frame; a NULL player yields 0. -/
def video_player_get_current_frame (o : Option VideoPlayer) : Nat :=
  match o with
  | none => 0
  | some pl => pl.current_frame

/-- video_player_get_position_sec: 0 for a NULL player or a zero fps, so
the division is only ever performed with a nonzero divisor. -/
def video_player_get_position_sec (o : Option VideoPlayer) : Nat :=
  match o with
  | none => 0
  | some pl => if pl.info.fps = 0 then 0 else pl.current_frame / pl.info.fps

/-- Four little-endian bytes of a 32-bit value, for building fixtures. -/
def le4 (n : Nat) : List Nat :=
  [n % 256, n / 256 % 256, n / 65536 % 256, n / 16777216 % 256]

/-- A concrete AVI container for witnesses: RIFF envelope, an hdrl list
holding an avih main header with micro_sec_per_frame 66667 and total_frames
150, and a movi list holding three video chunks of two bytes each with one
four-byte audio chunk between the second and third.  The avih chunk
declares size 48, matching exactly the 40 field bytes the source reads plus
the 8 bytes it believes it consumed beyond them, so the cursor stays
aligned.  The payload tags carry the byte prefixes the source tests for
(dc for video, wb for audio). -/
def fixtureAVI : List Nat :=
  [0x52, 0x49, 0x46, 0x46] ++ le4 118 ++ [0x41, 0x56, 0x49, 0x20] ++
  [0x4C, 0x49, 0x53, 0x54] ++ le4 52 ++ [0x68, 0x64, 0x72, 0x6C] ++
  [0x61, 0x76, 0x69, 0x68] ++ le4 48 ++
  le4 66667 ++ le4 0 ++ le4 0 ++ le4 0 ++ le4 150 ++ le4 0 ++ le4 2 ++
  le4 0 ++ le4 240 ++ le4 240 ++
  [0x4C, 0x49, 0x53, 0x54] ++ le4 46 ++ [0x6D, 0x6F, 0x76, 0x69] ++
  [0x64, 0x63, 0x30, 0x30] ++ le4 2 ++ [0xA1, 0xA2] ++
  [0x64, 0x63, 0x30, 0x30] ++ le4 2 ++ [0xB1, 0xB2] ++
  [0x77, 0x62, 0x30, 0x31] ++ le4 4 ++ [0xC1, 0xC2, 0xC3, 0xC4] ++
  [0x64, 0x63, 0x30, 0x30] ++ le4 2 ++ [0xD1, 0xD2]

/-- The parser produced by opening the fixture container. -/
def fixtureParser : AviParser := (avi_parser_open fixtureAVI).2

/-! Preservation facts about the stream primitives, used throughout. -/

theorem fread_data (f : CFile) (n : Nat) : (fread f n).2.2.data = f.data := rfl

theorem read_le32_data (f : CFile) : (read_le32 f).2.data = f.data := rfl

theorem read_fourcc_data (f : CFile) : (read_fourcc f).2.data = f.data := rfl

theorem fseekCur_data (f : CFile) (n : Nat) : (fseekCur f n).data = f.data := rfl

/-- Structure of a successful video-chunk scan, for every fuel value: the
returned frame carries the frame counter the parser held at call time and
the timestamp derived from it in uint32 arithmetic, the counter advances by
exactly one modulo 2 to the 32, and the header fields, the initialized flag
and the backing bytes are untouched. -/
theorem read_video_frame_loop_ok (fuel : Nat) :
    ∀ (p p2 : AviParser) (ofr : Option MjpegFrame),
    read_video_frame_loop fuel p = (EspErr.ok, ofr, p2) →
    ∃ fr, ofr = some fr ∧
      fr.frame_num = p.current_frame ∧
      fr.timestamp_ms = p.current_frame * p.main_header.micro_sec_per_frame % U32 / 1000 ∧
      p2.current_frame = (p.current_frame + 1) % U32 ∧
      p2.main_header = p.main_header ∧
      p2.initialized = p.initialized ∧
      p2.total_frames = p.total_frames ∧
      p2.file.data = p.file.data := by
  induction fuel with
  | zero =>
    intro p p2 ofr h
    simp [read_video_frame_loop] at h
  | succ n ih =>
    intro p p2 ofr h
    simp only [read_video_frame_loop] at h
    split at h
    · simp at h
    · split at h
      · simp at h
      · split at h
        · split at h
          · simp only [Prod.mk.injEq] at h
            obtain ⟨-, h2, h3⟩ := h
            refine ⟨_, h2.symm, rfl, rfl, ?_, ?_, ?_, ?_, ?_⟩ <;>
              simp [← h3, apply_ite CFile.data, fseekCur_data, fread_data, read_le32_data, read_fourcc_data]
          · simp at h
        · have h2 := ih _ _ _ h
          simpa [apply_ite CFile.data, fseekCur_data, read_le32_data, read_fourcc_data]
            using h2

/-- Structure of a successful avi_parser_read_video_frame call: the scan
facts plus the fact that the parser must have been initialized. -/
theorem avi_parser_read_video_frame_ok (p p2 : AviParser) (ofr : Option MjpegFrame)
    (h : avi_parser_read_video_frame p = (EspErr.ok, ofr, p2)) :
    p.initialized = true ∧
    ∃ fr, ofr = some fr ∧
      fr.frame_num = p.current_frame ∧
      fr.timestamp_ms = p.current_frame * p.main_header.micro_sec_per_frame % U32 / 1000 ∧
      p2.current_frame = (p.current_frame + 1) % U32 ∧
      p2.main_header = p.main_header ∧
      p2.initialized = p.initialized ∧
      p2.total_frames = p.total_frames ∧
      p2.file.data = p.file.data := by
  unfold avi_parser_read_video_frame at h
  split at h
  · exact ⟨by assumption, read_video_frame_loop_ok _ _ _ _ h⟩
  · simp at h

/-- A successful seek_loop run ends with the frame counter exactly at the
target, provided the counter started at or below a target representable in
32 bits; the header fields, the initialized flag and the backing bytes are
preserved.  Proved for every fuel value. -/
theorem seek_loop_ok (fuel : Nat) :
    ∀ (p : AviParser) (t : Nat), p.current_frame ≤ t → t < U32 →
    (seek_loop fuel p t).1 = EspErr.ok →
    (seek_loop fuel p t).2.current_frame = t ∧
    (seek_loop fuel p t).2.main_header = p.main_header ∧
    (seek_loop fuel p t).2.initialized = p.initialized ∧
    (seek_loop fuel p t).2.total_frames = p.total_frames ∧
    (seek_loop fuel p t).2.file.data = p.file.data := by
  induction fuel with
  | zero =>
    intro p t hle hU h
    simp [seek_loop] at h
  | succ n ih =>
    intro p t hle hU h
    rw [seek_loop] at h ⊢
    by_cases hlt : p.current_frame < t
    · rw [if_pos hlt] at h ⊢
      by_cases hok : (avi_parser_read_video_frame p).1 = EspErr.ok
      · rw [if_pos hok] at h ⊢
        have heq : avi_parser_read_video_frame p =
            (EspErr.ok, (avi_parser_read_video_frame p).2.1,
              (avi_parser_read_video_frame p).2.2) := by
          rw [← hok]
        obtain ⟨hinit, fr, hofr, hfn, hts, hcf, hmh, hini, htf, hdata⟩ :=
          avi_parser_read_video_frame_ok p _ _ heq
        have hle2 : (avi_parser_read_video_frame p).2.2.current_frame ≤ t := by
          rw [hcf, Nat.mod_eq_of_lt (lt_of_le_of_lt (Nat.succ_le_of_lt hlt) hU)]
          exact Nat.succ_le_of_lt hlt
        have h2 := ih _ t hle2 hU h
        exact ⟨h2.1, h2.2.1.trans hmh, h2.2.2.1.trans hini,
          h2.2.2.2.1.trans htf, h2.2.2.2.2.trans hdata⟩
      · rw [if_neg hok] at h
        simp at h
    · rw [if_neg hlt] at h ⊢
      exact ⟨Nat.le_antisymm hle (Nat.le_of_not_lt hlt), rfl, rfl, rfl, rfl⟩

/-- Structure of a successful avi_parser_seek: the frame counter lands
exactly on the target and the header metadata, initialized flag and backing
bytes are preserved. -/
theorem avi_parser_seek_ok (p : AviParser) (n : Nat) (hU : n < U32)
    (h : (avi_parser_seek p n).1 = EspErr.ok) :
    (avi_parser_seek p n).2.current_frame = n ∧
    (avi_parser_seek p n).2.initialized = true ∧
    (avi_parser_seek p n).2.file.data = p.file.data ∧
    (avi_parser_seek p n).2.main_header = p.main_header ∧
    (avi_parser_seek p n).2.total_frames = p.total_frames := by
  by_cases hinit : p.initialized = true
  · rw [avi_parser_seek, if_pos hinit] at h ⊢
    have h2 := seek_loop_ok (n + 1) _ n (Nat.zero_le n) hU h
    exact ⟨h2.1, h2.2.2.1.trans hinit, h2.2.2.2.2, h2.2.1, h2.2.2.2.1⟩
  · rw [avi_parser_seek, if_neg hinit] at h
    simp at h

/-- Claim C1: for an open container, after a successful avi_parser_seek to
frame index n within the frame count (n is a uint32, hence below 2 to the
32), the next successful avi_parser_read_video_frame returns a chunk whose
frame_num field equals exactly n: seek rescans from the payload start and
leaves the counter at n, and the read stamps the counter into the chunk. -/
theorem c1_seek_then_read_frame_num (p : AviParser) (n : Nat)
    (hn : n < p.total_frames) (hU : n < U32)
    (h1 : (avi_parser_seek p n).1 = EspErr.ok)
    (h2 : (avi_parser_read_video_frame (avi_parser_seek p n).2).1 = EspErr.ok) :
    ∃ fr, (avi_parser_read_video_frame (avi_parser_seek p n).2).2.1 = some fr ∧
      fr.frame_num = n := by
  obtain ⟨hcf, hinit, -, -, -⟩ := avi_parser_seek_ok p n hU h1
  have heq : avi_parser_read_video_frame (avi_parser_seek p n).2 =
      (EspErr.ok, (avi_parser_read_video_frame (avi_parser_seek p n).2).2.1,
        (avi_parser_read_video_frame (avi_parser_seek p n).2).2.2) := by
    rw [← h2]
  obtain ⟨-, fr, hofr, hfn, -⟩ := avi_parser_read_video_frame_ok _ _ _ heq
  exact ⟨fr, hofr, hfn.trans hcf⟩

/-- Witness for claim C1 on the fixture container, at frame index 1. -/
theorem c1_witness :
    1 < fixtureParser.total_frames ∧ 1 < U32 ∧
    (∃ fr, (avi_parser_read_video_frame (avi_parser_seek fixtureParser 1).2).2.1 = some fr ∧
      fr.frame_num = 1) :=
  ⟨by decide, by decide,
    c1_seek_then_read_frame_num fixtureParser 1 (by decide) (by decide) (by decide) (by decide)⟩

/-- Claim C2 (amended): for two consecutive successful video-chunk reads
with no intervening seek, the frame_num fields increase by exactly 1 and
the presentation timestamps are non-decreasing, provided the 32-bit
products do not wrap: the successor frame counter and its product with
micro_sec_per_frame stay below 2 to the 32.  Without that bound the uint32
timestamp arithmetic of the source wraps and the timestamps can decrease,
as the counterexample shows. -/
theorem c2_amended_sequential_reads (p : AviParser)
    (h1 : (avi_parser_read_video_frame p).1 = EspErr.ok)
    (h2 : (avi_parser_read_video_frame (avi_parser_read_video_frame p).2.2).1 = EspErr.ok)
    (hov : (p.current_frame + 1) * p.main_header.micro_sec_per_frame < U32)
    (hcf : p.current_frame + 1 < U32) :
    ∃ f1 f2,
      (avi_parser_read_video_frame p).2.1 = some f1 ∧
      (avi_parser_read_video_frame (avi_parser_read_video_frame p).2.2).2.1 = some f2 ∧
      f2.frame_num = f1.frame_num + 1 ∧
      f1.timestamp_ms ≤ f2.timestamp_ms := by
  have e1 : avi_parser_read_video_frame p =
      (EspErr.ok, (avi_parser_read_video_frame p).2.1,
        (avi_parser_read_video_frame p).2.2) := by
    rw [← h1]
  obtain ⟨-, f1, hf1, hfn1, hts1, hc1, hmh1, -, -, -⟩ :=
    avi_parser_read_video_frame_ok _ _ _ e1
  have e2 : avi_parser_read_video_frame (avi_parser_read_video_frame p).2.2 =
      (EspErr.ok, (avi_parser_read_video_frame (avi_parser_read_video_frame p).2.2).2.1,
        (avi_parser_read_video_frame (avi_parser_read_video_frame p).2.2).2.2) := by
    rw [← h2]
  obtain ⟨-, f2, hf2, hfn2, hts2, -, -, -, -, -⟩ :=
    avi_parser_read_video_frame_ok _ _ _ e2
  have hc : (avi_parser_read_video_frame p).2.2.current_frame = p.current_frame + 1 := by
    rw [hc1, Nat.mod_eq_of_lt hcf]
  refine ⟨f1, f2, hf1, hf2, ?_, ?_⟩
  · rw [hfn2, hfn1, hc]
  · rw [hts1, hts2, hmh1, hc]
    have hle : p.current_frame * p.main_header.micro_sec_per_frame ≤
        (p.current_frame + 1) * p.main_header.micro_sec_per_frame :=
      Nat.mul_le_mul_right _ (Nat.le_succ _)
    rw [Nat.mod_eq_of_lt hov, Nat.mod_eq_of_lt (lt_of_le_of_lt hle hov)]
    exact Nat.div_le_div_right hle

/-- Byte content of two consecutive video chunks of two data bytes each,
carrying the byte prefix the source recognizes as video. -/
def c2Chunks : List Nat :=
  [0x64, 0x63, 0x30, 0x30, 2, 0, 0, 0, 0xA1, 0xA2,
   0x64, 0x63, 0x30, 0x30, 2, 0, 0, 0, 0xB1, 0xB2]

/-- An open container positioned before two video chunks, frame counter at
64424, frame interval 66667: exactly the state a container with 64426 video
chunks of this shape reaches after 64424 sequential reads (64424 * 66667 is
the last such product below 2 to the 32). -/
def c2Reached : AviParser :=
  { zeroAviParser with
    file := fopenContent c2Chunks
    file_open := true
    initialized := true
    current_frame := 64424
    main_header := ⟨66667, 0, 70000, 0, 0, 0, 0⟩
    total_frames := 70000 }

/-- Claim C2 counterexample: on the reachable open-container state with
frame counter 64424 and frame interval 66667, two consecutive successful
reads return timestamps 4294954 then 54: the uint32 product wraps, so the
presentation timestamps of sequential reads are not non-decreasing as the
claim states. -/
theorem c2_counterexample :
    (avi_parser_read_video_frame c2Reached).1 = EspErr.ok ∧
    (avi_parser_read_video_frame (avi_parser_read_video_frame c2Reached).2.2).1 = EspErr.ok ∧
    ((avi_parser_read_video_frame c2Reached).2.1.map MjpegFrame.timestamp_ms).getD 0 = 4294954 ∧
    ((avi_parser_read_video_frame (avi_parser_read_video_frame c2Reached).2.2).2.1.map
      MjpegFrame.timestamp_ms).getD 0 = 54 ∧
    ¬ (4294954 ≤ 54) := by decide

/-- The counterexample container at frame counter 0, for the amended-claim
witness. -/
def c2Start : AviParser := { c2Reached with current_frame := 0 }

/-- Witness for the amended claim C2 at the start of the two-chunk
stream. -/
theorem c2_witness :
    ∃ f1 f2,
      (avi_parser_read_video_frame c2Start).2.1 = some f1 ∧
      (avi_parser_read_video_frame (avi_parser_read_video_frame c2Start).2.2).2.1 = some f2 ∧
      f2.frame_num = f1.frame_num + 1 ∧
      f1.timestamp_ms ≤ f2.timestamp_ms :=
  c2_amended_sequential_reads c2Start (by decide) (by decide) (by decide) (by decide)

theorem fread_size (f : CFile) (n : Nat) : (fread f n).2.2.size = f.size := rfl

theorem read_le32_size (f : CFile) : (read_le32 f).2.size = f.size := rfl

theorem read_fourcc_size (f : CFile) : (read_fourcc f).2.size = f.size := rfl

theorem fseekCur_size (f : CFile) (n : Nat) : (fseekCur f n).size = f.size := rfl

theorem fseekCur_pos (f : CFile) (n : Nat) : (fseekCur f n).pos = f.pos + n := rfl

theorem fread_pos (f : CFile) (n : Nat) :
    (fread f n).2.2.pos = f.pos + (fread f n).1 := rfl

/-- The bytes fread returns are below 256 to the count read: they are a
base-256 string of that many digits. -/
theorem fread_val_lt (f : CFile) (n : Nat) : (fread f n).2.1 < 256 ^ (fread f n).1 :=
  Nat.mod_lt _ (pow_pos (by norm_num) _)

/-- Structure of a successful audio-chunk scan, for every fuel value: the
stored byte count never exceeds max_size, the caller buffer is untouched
from byte offset count onward (its high part above 256 to the count in the
base-256 encoding is unchanged), the backing bytes and file length are
untouched, and there is a chunk-header position d in the unchanged file
whose tag the source recognizes as audio and whose declared size s
determines the count (clipped to max_size and to the bytes available) and
the final cursor: data start plus count, plus the skipped remainder when
the declared size exceeds max_size, plus the pad byte when s is odd. -/
theorem read_audio_chunk_loop_ok (fuel : Nat) :
    ∀ (p p2 : AviParser) (buf maxSize n buf2 : Nat),
    read_audio_chunk_loop fuel p buf maxSize = (EspErr.ok, n, buf2, p2) →
    n ≤ maxSize ∧
    buf2 / 256 ^ n = buf / 256 ^ n ∧
    p2.file.data = p.file.data ∧
    p2.file.size = p.file.size ∧
    ∃ d s,
      (read_fourcc ⟨p.file.data, p.file.size, d, false⟩).1 % 65536 = 0x6277 ∧
      s = (read_le32 (read_fourcc ⟨p.file.data, p.file.size, d, false⟩).2).1 ∧
      n ≤ min s maxSize ∧
      p2.file.pos =
        (read_le32 (read_fourcc ⟨p.file.data, p.file.size, d, false⟩).2).2.pos + n +
          (if maxSize < s then s - maxSize else 0) + (if s % 2 = 1 then 1 else 0) := by
  induction fuel with
  | zero =>
    intro p p2 buf maxSize n buf2 h
    simp [read_audio_chunk_loop] at h
  | succ m ih =>
    intro p p2 buf maxSize n buf2 h
    simp only [read_audio_chunk_loop] at h
    split at h
    case isTrue => simp at h
    case isFalse heof =>
      split at h
      case isTrue => simp at h
      case isFalse heof2 =>
        split at h
        case isTrue htag =>
          simp only [Prod.mk.injEq] at h
          obtain ⟨-, hk, hbuf, hp2⟩ := h
          have hfe : p.file.eof = false := Bool.eq_false_iff.mpr heof
          have hfile : (⟨p.file.data, p.file.size, p.file.pos, false⟩ : CFile) = p.file := by
            rw [← hfe]
          have hkle : n ≤ maxSize := by
            rw [← hk]
            refine le_trans (Nat.min_le_left _ _) ?_
            split <;> omega
          refine ⟨hkle, ?_, ?_, ?_, p.file.pos,
            (read_le32 (read_fourcc p.file).2).1, ?_, ?_, ?_, ?_⟩
          · rw [← hbuf, ← hk,
              Nat.add_mul_div_right _ _ (pow_pos (by norm_num) _),
              Nat.div_eq_of_lt (fread_val_lt _ _), Nat.zero_add]
          · rw [← hp2]
            simp [apply_ite CFile.data, fseekCur_data, fread_data, read_le32_data,
              read_fourcc_data]
          · rw [← hp2]
            simp [apply_ite CFile.size, fseekCur_size, fread_size, read_le32_size,
              read_fourcc_size]
          · rw [hfile]
            exact htag
          · rw [hfile]
          · refine le_min ?_ hkle
            rw [← hk]
            refine le_trans (Nat.min_le_left _ _) ?_
            split <;> omega
          · rw [hfile, ← hp2, ← hk]
            simp only [apply_ite CFile.pos, fseekCur_pos, fread_pos]
            split <;> split <;> omega
        case isFalse htag =>
          have hrec := ih _ _ _ _ _ _ h
          simp only [apply_ite CFile.data, apply_ite CFile.size, fseekCur_data,
            fseekCur_size, read_le32_data, read_le32_size, read_fourcc_data,
            read_fourcc_size, ite_self] at hrec
          exact hrec
/-- Claim C4: a successful avi_parser_read_audio_chunk call that finds an
audio chunk of declared size s stores at most min(s, max_size) bytes into
the caller buffer and leaves the buffer untouched beyond the stored count
(in particular beyond max_size): the high part of the buffer above 256 to
the count in the base-256 encoding is unchanged.  The remainder of an
oversized chunk, plus the pad byte when s is odd, is skipped in the file:
the final cursor sits at the chunk data start plus the stored count plus
s - max_size when s exceeds max_size, plus the pad byte when s is odd. -/
theorem c4_audio_buffer_bound (p : AviParser) (buf maxSize : Nat)
    (h : (avi_parser_read_audio_chunk p buf maxSize).1 = EspErr.ok) :
    (avi_parser_read_audio_chunk p buf maxSize).2.1 ≤ maxSize ∧
    (avi_parser_read_audio_chunk p buf maxSize).2.2.1 /
        256 ^ (avi_parser_read_audio_chunk p buf maxSize).2.1 =
      buf / 256 ^ (avi_parser_read_audio_chunk p buf maxSize).2.1 ∧
    ∃ d s,
      (read_fourcc ⟨p.file.data, p.file.size, d, false⟩).1 % 65536 = 0x6277 ∧
      s = (read_le32 (read_fourcc ⟨p.file.data, p.file.size, d, false⟩).2).1 ∧
      (avi_parser_read_audio_chunk p buf maxSize).2.1 ≤ min s maxSize ∧
      (avi_parser_read_audio_chunk p buf maxSize).2.2.2.file.pos =
        (read_le32 (read_fourcc ⟨p.file.data, p.file.size, d, false⟩).2).2.pos +
          (avi_parser_read_audio_chunk p buf maxSize).2.1 +
          (if maxSize < s then s - maxSize else 0) + (if s % 2 = 1 then 1 else 0) := by
  by_cases hin : p.initialized = true
  · rw [avi_parser_read_audio_chunk, if_pos hin] at h ⊢
    have e : read_audio_chunk_loop (p.file.size + 2) p buf maxSize =
        (EspErr.ok, (read_audio_chunk_loop (p.file.size + 2) p buf maxSize).2.1,
          (read_audio_chunk_loop (p.file.size + 2) p buf maxSize).2.2.1,
          (read_audio_chunk_loop (p.file.size + 2) p buf maxSize).2.2.2) := by
      rw [← h]
    obtain ⟨h1, h2, -, -, d, s, ha, hb, hc, hd⟩ := read_audio_chunk_loop_ok _ _ _ _ _ _ _ e
    exact ⟨h1, h2, d, s, ha, hb, hc, hd⟩
  · rw [avi_parser_read_audio_chunk, if_neg hin] at h
    simp at h

/-- Witness for claim C4 on the fixture container with an empty two-byte
caller buffer: the audio chunk of declared size 4 is clipped to 2 bytes. -/
theorem c4_witness :
    (avi_parser_read_audio_chunk fixtureParser 0 2).2.1 ≤ 2 ∧
    (avi_parser_read_audio_chunk fixtureParser 0 2).2.2.1 /
        256 ^ (avi_parser_read_audio_chunk fixtureParser 0 2).2.1 =
      0 / 256 ^ (avi_parser_read_audio_chunk fixtureParser 0 2).2.1 ∧
    ∃ d s,
      (read_fourcc ⟨fixtureParser.file.data, fixtureParser.file.size, d, false⟩).1 % 65536 = 0x6277 ∧
      s = (read_le32 (read_fourcc ⟨fixtureParser.file.data, fixtureParser.file.size, d, false⟩).2).1 ∧
      (avi_parser_read_audio_chunk fixtureParser 0 2).2.1 ≤ min s 2 ∧
      (avi_parser_read_audio_chunk fixtureParser 0 2).2.2.2.file.pos =
        (read_le32 (read_fourcc ⟨fixtureParser.file.data, fixtureParser.file.size, d, false⟩).2).2.pos +
          (avi_parser_read_audio_chunk fixtureParser 0 2).2.1 +
          (if 2 < s then s - 2 else 0) + (if s % 2 = 1 then 1 else 0) :=
  c4_audio_buffer_bound fixtureParser 0 2 (by decide)

/-- The outer envelope tag avi_parser_open reads first: the first four
bytes of the file, little-endian. -/
def open_outer_tag (content : List Nat) : Nat :=
  (read_fourcc (fopenContent content)).1

/-- The nested format tag avi_parser_open reads third, after the envelope
tag and the declared file size. -/
def open_format_tag (content : List Nat) : Nat :=
  (read_fourcc (read_le32 (read_fourcc (fopenContent content)).2).2).1

/-- parse_avi_header rejects a stream whose envelope tag is not RIFF or
whose format tag is not AVI with ESP_ERR_INVALID_ARG, touching neither the
initialized flag nor the open-file flag. -/
theorem parse_avi_header_invalid (fuel : Nat) (p : AviParser)
    (h : (read_fourcc p.file).1 ≠ FOURCC_RIFF ∨
      (read_fourcc (read_le32 (read_fourcc p.file).2).2).1 ≠ FOURCC_AVI) :
    (parse_avi_header fuel p).1 = EspErr.invalidArg ∧
    (parse_avi_header fuel p).2.initialized = p.initialized ∧
    (parse_avi_header fuel p).2.file_open = p.file_open := by
  rw [parse_avi_header]
  by_cases h1 : (read_fourcc p.file).1 ≠ FOURCC_RIFF
  · rw [if_pos h1]
    exact ⟨rfl, rfl, rfl⟩
  · rw [if_neg h1, if_pos (h.resolve_left h1)]
    exact ⟨rfl, rfl, rfl⟩

/-- Claim C5: when the outer envelope tag or the nested format tag of the
file does not match the RIFF/AVI signature, avi_parser_open returns the
invalid-format error (ESP_ERR_INVALID_ARG in the source) and leaves no open
container: the file handle is closed and cleared, the initialized flag
stays false, and a subsequent avi_parser_read_video_frame is rejected with
ESP_ERR_INVALID_ARG. -/
theorem c5_invalid_format_rejected (content : List Nat)
    (h : open_outer_tag content ≠ FOURCC_RIFF ∨ open_format_tag content ≠ FOURCC_AVI) :
    (avi_parser_open content).1 = EspErr.invalidArg ∧
    (avi_parser_open content).2.file_open = false ∧
    (avi_parser_open content).2.initialized = false ∧
    (avi_parser_read_video_frame (avi_parser_open content).2).1 = EspErr.invalidArg := by
  have hp := parse_avi_header_invalid (content.length + 2)
    { zeroAviParser with file := fopenContent content, file_open := true } h
  rw [avi_parser_open]
  rw [if_pos (by rw [hp.1]; exact fun hc => EspErr.noConfusion hc)]
  have hini : ((parse_avi_header (content.length + 2)
      { zeroAviParser with file := fopenContent content, file_open := true }).2).initialized
      = false := hp.2.1
  refine ⟨hp.1, rfl, hini, ?_⟩
  rw [avi_parser_read_video_frame, if_neg (by rw [hini]; exact Bool.false_ne_true)]

/-- Witness for claim C5: a four-byte file whose outer tag is JUNK. -/
theorem c5_witness :
    (avi_parser_open [0x4A, 0x55, 0x4E, 0x4B]).1 = EspErr.invalidArg ∧
    (avi_parser_open [0x4A, 0x55, 0x4E, 0x4B]).2.file_open = false ∧
    (avi_parser_open [0x4A, 0x55, 0x4E, 0x4B]).2.initialized = false ∧
    (avi_parser_read_video_frame (avi_parser_open [0x4A, 0x55, 0x4E, 0x4B]).2).1 =
      EspErr.invalidArg :=
  c5_invalid_format_rejected [0x4A, 0x55, 0x4E, 0x4B] (Or.inl (by decide))

/-- Claim C3: when the intrinsic dimensions the header parse reports for a
frame exceed the declared decoder maxima, mjpeg_decoder_decode_frame
returns ESP_ERR_INVALID_SIZE before the pixel-producing decode runs: the
destination frame buffer, its pixels and its readiness flag, the output
dimensions and the decoder state are all returned exactly as they were. -/
theorem c3_size_exceeded_no_write (getInfo : Nat → Option (Nat × Nat))
    (process : Nat → List Nat → EspErr × List Nat) (elapsed : Nat)
    (d : MjpegDecoder) (frame : MjpegFrame) (fb : FrameBuffer) (w h : Nat)
    (hinfo : getInfo frame.data = some (w, h))
    (hex : d.max_width < w ∨ d.max_height < h) :
    mjpeg_decoder_decode_frame getInfo process elapsed d frame fb =
      (EspErr.invalidSize, fb, none, d) := by
  rw [mjpeg_decoder_decode_frame, hinfo]
  simp only [if_pos hex]

/-- Witness for claim C3: a 400 by 240 frame against a 320 by 240 decoder;
the buffer with its readiness flag set stays exactly as it was. -/
theorem c3_witness :
    mjpeg_decoder_decode_frame (fun _ => some (400, 240))
      (fun _ b => (EspErr.ok, b)) 7 ⟨320, 240, 0⟩ ⟨0xAB, 1, 0, 0⟩ ⟨[1, 2, 3], 2, 2, true⟩ =
      (EspErr.invalidSize, ⟨[1, 2, 3], 2, 2, true⟩, none, ⟨320, 240, 0⟩) :=
  c3_size_exceeded_no_write (fun _ => some (400, 240)) (fun _ b => (EspErr.ok, b)) 7
    ⟨320, 240, 0⟩ ⟨0xAB, 1, 0, 0⟩ ⟨[1, 2, 3], 2, 2, true⟩ 400 240 rfl
    (Or.inl (by decide))

/-- Claim C6 counterexample: on the fixture container whose header declares
micro_sec_per_frame 66667 and total_frames 150, video_player_open succeeds
but get_info reports fps 14, not 15: the source casts the float
1000000.0f / 66667 (about 14.99978) to uint16, which truncates toward zero
instead of rounding. -/
theorem c6_counterexample :
    (video_player_open video_player_create fixtureAVI).1 = EspErr.ok ∧
    ((video_player_get_info (some (video_player_open video_player_create fixtureAVI).2)).2.map
      VideoInfo.fps).getD 0 ≠ 15 := by decide

/-- Claim C6 (amended): for the container with micro_sec_per_frame 66667
and total_frames 150, after video_player_open succeeds get_info reports
fps 14 (the truncated, not rounded, cast of the float fps) and
duration_sec 10 (the integer division 150 / 14). -/
theorem c6_amended_fps_duration :
    (video_player_open video_player_create fixtureAVI).1 = EspErr.ok ∧
    ((video_player_get_info (some (video_player_open video_player_create fixtureAVI).2)).2.map
      VideoInfo.fps).getD 0 = 14 ∧
    ((video_player_get_info (some (video_player_open video_player_create fixtureAVI).2)).2.map
      VideoInfo.duration_sec).getD 0 = 10 := by decide

/-- A successful avi_parser_open leaves the parser initialized. -/
theorem avi_parser_open_ok (content : List Nat)
    (h : (avi_parser_open content).1 = EspErr.ok) :
    (avi_parser_open content).2.initialized = true := by
  rw [avi_parser_open] at h ⊢
  by_cases hr : (parse_avi_header (content.length + 2)
      { zeroAviParser with file := fopenContent content, file_open := true }).1 ≠ EspErr.ok
  · rw [if_pos hr] at h
    exact absurd h hr
  · rw [if_neg hr]

/-- Claim C8 counterexample: a successful video_player_open on a player in
the Playing state leaves the state Playing: the source never writes the
state field in video_player_open, so the player is not left Stopped as the
claim states. -/
theorem c8_counterexample :
    (video_player_open { video_player_create with state := VideoState.playing }
      fixtureAVI).1 = EspErr.ok ∧
    (video_player_open { video_player_create with state := VideoState.playing }
      fixtureAVI).2.state = VideoState.playing ∧
    (video_player_open { video_player_create with state := VideoState.playing }
      fixtureAVI).2.state ≠ VideoState.stopped := by decide

/-- Claim C8 (amended): a successful video_player_open closes any
previously open container (the embedded demuxer state is replaced wholesale
by the freshly opened one, the old file handle having been closed by
video_player_close first), opens the new one (the embedded demuxer equals
the result of avi_parser_open on the new content and is initialized),
and resets the current frame index to 0 — but it leaves the state field
unchanged rather than forcing the Stopped state. -/
theorem c8_amended_open_effects (pl : VideoPlayer) (content : List Nat)
    (h : (video_player_open pl content).1 = EspErr.ok) :
    (video_player_open pl content).2.state = pl.state ∧
    (video_player_open pl content).2.current_frame = 0 ∧
    (video_player_open pl content).2.avi_demux = (avi_parser_open content).2 ∧
    (avi_parser_open content).2.initialized = true := by
  rw [video_player_open] at h ⊢
  by_cases hr : (avi_parser_open content).1 ≠ EspErr.ok
  · rw [if_pos hr] at h
    exact absurd h hr
  · rw [if_neg hr] at h ⊢
    exact ⟨rfl, rfl, rfl, avi_parser_open_ok content (not_not.mp hr)⟩

/-- Witness for the amended claim C8 on the fixture container, from a
freshly created player. -/
theorem c8_witness :
    (video_player_open video_player_create fixtureAVI).2.state = video_player_create.state ∧
    (video_player_open video_player_create fixtureAVI).2.current_frame = 0 ∧
    (video_player_open video_player_create fixtureAVI).2.avi_demux =
      (avi_parser_open fixtureAVI).2 ∧
    (avi_parser_open fixtureAVI).2.initialized = true :=
  c8_amended_open_effects video_player_create fixtureAVI (by decide)

/-- Claim C9: on a player in the Playing state, video_player_pause returns
ESP_OK and changes only the state field, to Paused: the current frame
index, the embedded demuxer with its open container, the video info, the
frame buffer pair with its readiness flags, the current buffer index and
the frame interval are all unchanged. -/
theorem c9_pause_only_state (pl : VideoPlayer) (h : pl.state = VideoState.playing) :
    (video_player_pause pl).1 = EspErr.ok ∧
    (video_player_pause pl).2.state = VideoState.paused ∧
    (video_player_pause pl).2.current_frame = pl.current_frame ∧
    (video_player_pause pl).2.avi_demux = pl.avi_demux ∧
    (video_player_pause pl).2.info = pl.info ∧
    (video_player_pause pl).2.frame_buffer = pl.frame_buffer ∧
    (video_player_pause pl).2.current_buffer = pl.current_buffer ∧
    (video_player_pause pl).2.frame_time_us = pl.frame_time_us := by
  rw [video_player_pause, if_pos h]
  exact ⟨rfl, rfl, rfl, rfl, rfl, rfl, rfl, rfl⟩

/-- A freshly created player switched to the Playing state, for witnesses. -/
def playingPlayer : VideoPlayer :=
  { video_player_create with state := VideoState.playing }

/-- Witness for claim C9 on a playing player. -/
theorem c9_witness :
    (video_player_pause playingPlayer).1 = EspErr.ok ∧
    (video_player_pause playingPlayer).2.state = VideoState.paused ∧
    (video_player_pause playingPlayer).2.current_frame = playingPlayer.current_frame ∧
    (video_player_pause playingPlayer).2.avi_demux = playingPlayer.avi_demux ∧
    (video_player_pause playingPlayer).2.info = playingPlayer.info ∧
    (video_player_pause playingPlayer).2.frame_buffer = playingPlayer.frame_buffer ∧
    (video_player_pause playingPlayer).2.current_buffer = playingPlayer.current_buffer ∧
    (video_player_pause playingPlayer).2.frame_time_us = playingPlayer.frame_time_us :=
  c9_pause_only_state playingPlayer rfl

/-- Claim C10: the public video-player queries are total on a NULL handle:
get_state of NULL is the Error state, get_current_frame of NULL is 0, and
get_position_sec returns 0 when the player is NULL or its fps is 0, so the
position division is never performed with a zero divisor. -/
theorem c10_null_queries_total (pl : VideoPlayer) (h : pl.info.fps = 0) :
    video_player_get_state none = VideoState.error ∧
    video_player_get_current_frame none = 0 ∧
    video_player_get_position_sec none = 0 ∧
    video_player_get_position_sec (some pl) = 0 := by
  refine ⟨rfl, rfl, rfl, ?_⟩
  rw [video_player_get_position_sec]
  rw [if_pos h]

/-- Witness for claim C10 on a freshly created player, whose fps is 0. -/
theorem c10_witness :
    video_player_get_state none = VideoState.error ∧
    video_player_get_current_frame none = 0 ∧
    video_player_get_position_sec none = 0 ∧
    video_player_get_position_sec (some video_player_create) = 0 :=
  c10_null_queries_total video_player_create rfl

/-- Claim C7 counterexample: sample -1000 at volume 50.  The fixed-point
factor is 32768, so the claimed scaled-and-saturated value is
floor(-1000 * 32768 / 65536) = -500, which lies inside [-32768, 32767] and
would be left alone by the saturation; but the code multiplies in unsigned
32-bit arithmetic and shifts logically, landing above 32767 and clamping
to 32767.  So a negative sample is not scaled by the fixed-point factor as
the claim states. -/
theorem c7_counterexample :
    apply_volume 50 [(-1000 : Int)] = [32767] ∧
    Int.fdiv ((-1000 : Int) * ((50 * 65536 / 100 : Nat) : Int)) 65536 = -500 ∧
    -32768 ≤ (-500 : Int) ∧ (-500 : Int) ≤ 32767 ∧
    (32767 : Int) ≠ -500 := by decide

/-- Claim C7 (amended): for 16-bit samples and a volume v at most 100: at
v = 100 the samples pass through the audio feed unchanged — apply_volume
does not rescale them and audio_player_write hands the data to the sink as
is.  For v below 100 the code multiplies each int32 sample by the uint32
factor v * 65536 / 100 in unsigned 32-bit arithmetic and shifts logically
before the saturating clamp, so a non-negative sample is scaled by the
fixed-point factor (the product floor-divided by 65536, never clamped,
landing in [0, 32767]), while a negative sample saturates to 32767 for
every v in [1, 99] and maps to 0 at v = 0. -/
theorem c7_volume_scaling (pl : AudioPlayer) (samples : List Int) (v : Nat)
    (hv : v ≤ 100)
    (hs : ∀ s ∈ samples, -32768 ≤ s ∧ s ≤ 32767) :
    (apply_volume 100 samples = samples) ∧
    (pl.state = AudioState.playing → pl.volume = 100 →
      audio_player_write pl samples = (EspErr.ok, some samples)) ∧
    (v < 100 →
      (apply_volume v samples).length = samples.length ∧
      ∀ (i : Nat) (h1 : i < samples.length) (h2 : i < (apply_volume v samples).length),
        (0 ≤ samples.get ⟨i, h1⟩ →
          (apply_volume v samples).get ⟨i, h2⟩ =
            Int.fdiv (samples.get ⟨i, h1⟩ * ((v * 65536 / 100 : Nat) : Int)) 65536 ∧
          0 ≤ (apply_volume v samples).get ⟨i, h2⟩ ∧
          (apply_volume v samples).get ⟨i, h2⟩ ≤ 32767) ∧
        (samples.get ⟨i, h1⟩ < 0 → 1 ≤ v →
          (apply_volume v samples).get ⟨i, h2⟩ = 32767) ∧
        (samples.get ⟨i, h1⟩ < 0 → v = 0 →
          (apply_volume v samples).get ⟨i, h2⟩ = 0)) := by
  refine ⟨by simp [apply_volume], ?_, ?_⟩
  · intro hst hvol
    rw [audio_player_write, if_neg (by simp [hst]), if_neg (by simp [hvol])]
  · intro hlt
    have hnot : ¬ 100 ≤ v := by omega
    have hsc0 : (0 : Int) ≤ ((v * 65536 / 100 : Nat) : Int) := Int.natCast_nonneg _
    have hsc : ((v * 65536 / 100 : Nat) : Int) ≤ 64880 := by
      have hn : v * 65536 / 100 ≤ 64880 := by
        calc v * 65536 / 100 ≤ 99 * 65536 / 100 :=
          Nat.div_le_div_right (Nat.mul_le_mul_right _ (by omega))
        _ = 64880 := by norm_num
      exact_mod_cast hn
    constructor
    · simp [apply_volume, hnot]
    · intro i h1 h2
      have hg : (apply_volume v samples).get ⟨i, h2⟩ =
          clamp16 (samples.get ⟨i, h1⟩ * ((v * 65536 / 100 : Nat) : Int) % 4294967296
            / 65536) := by
        simp [apply_volume, hnot, List.get_eq_getElem, List.getElem_map]
      obtain ⟨hl, hr⟩ := hs _ (samples.get_mem _ _)
      refine ⟨?_, ?_, ?_⟩
      · intro hpos
        have hub : samples.get ⟨i, h1⟩ * ((v * 65536 / 100 : Nat) : Int) ≤ 32767 * 64880 :=
          mul_le_mul hr hsc hsc0 (by norm_num)
        have hlb : 0 ≤ samples.get ⟨i, h1⟩ * ((v * 65536 / 100 : Nat) : Int) :=
          mul_nonneg hpos hsc0
        have hmod : samples.get ⟨i, h1⟩ * ((v * 65536 / 100 : Nat) : Int) % 4294967296 =
            samples.get ⟨i, h1⟩ * ((v * 65536 / 100 : Nat) : Int) :=
          Int.emod_eq_of_lt hlb (by omega)
        have hval : (apply_volume v samples).get ⟨i, h2⟩ =
            samples.get ⟨i, h1⟩ * ((v * 65536 / 100 : Nat) : Int) / 65536 := by
          rw [hg, hmod, clamp16, if_neg (by omega), if_neg (by omega)]
        rw [hval, Int.fdiv_eq_ediv _ (show (0 : Int) ≤ 65536 by norm_num)]
        refine ⟨rfl, by omega, by omega⟩
      · intro hneg hv1
        have hscge : (655 : Int) ≤ ((v * 65536 / 100 : Nat) : Int) := by
          have hn : (655 : Nat) ≤ v * 65536 / 100 := by
            calc (655 : Nat) = 1 * 65536 / 100 := by norm_num
            _ ≤ v * 65536 / 100 :=
              Nat.div_le_div_right (Nat.mul_le_mul_right _ hv1)
          exact_mod_cast hn
        have ha2 : (-32768 : Int) * 64880 ≤ -32768 * ((v * 65536 / 100 : Nat) : Int) :=
          mul_le_mul_of_nonpos_left hsc (by norm_num)
        have ha1 : (-32768 : Int) * ((v * 65536 / 100 : Nat) : Int) ≤
            samples.get ⟨i, h1⟩ * ((v * 65536 / 100 : Nat) : Int) :=
          mul_le_mul_of_nonneg_right hl hsc0
        have hlb : (-32768 : Int) * 64880 ≤
            samples.get ⟨i, h1⟩ * ((v * 65536 / 100 : Nat) : Int) := le_trans ha2 ha1
        have hub : samples.get ⟨i, h1⟩ * ((v * 65536 / 100 : Nat) : Int) < 0 :=
          mul_neg_of_neg_of_pos hneg (by omega)
        rw [hg, clamp16, if_pos (by omega)]
      · intro hneg hv0
        subst hv0
        have hz : ((0 * 65536 / 100 : Nat) : Int) = 0 := by decide
        rw [hg, hz, mul_zero]
        decide

/-- An initialized 16-bit audio player in the Playing state at volume 100,
for the claim C7 witness. -/
def audioP : AudioPlayer := ⟨AudioState.playing, 100, 16⟩

/-- Witness for the amended claim C7 at volume 50 on the two-sample list
1000, -1000 (the code yields 500 and 32767). -/
theorem c7_witness :
    (apply_volume 100 [(1000 : Int), -1000] = [(1000 : Int), -1000]) ∧
    (audioP.state = AudioState.playing → audioP.volume = 100 →
      audio_player_write audioP [(1000 : Int), -1000] =
        (EspErr.ok, some [(1000 : Int), -1000])) ∧
    (50 < 100 →
      (apply_volume 50 [(1000 : Int), -1000]).length = [(1000 : Int), -1000].length ∧
      ∀ (i : Nat) (h1 : i < [(1000 : Int), -1000].length)
        (h2 : i < (apply_volume 50 [(1000 : Int), -1000]).length),
        (0 ≤ [(1000 : Int), -1000].get ⟨i, h1⟩ →
          (apply_volume 50 [(1000 : Int), -1000]).get ⟨i, h2⟩ =
            Int.fdiv ([(1000 : Int), -1000].get ⟨i, h1⟩ * ((50 * 65536 / 100 : Nat) : Int))
              65536 ∧
          0 ≤ (apply_volume 50 [(1000 : Int), -1000]).get ⟨i, h2⟩ ∧
          (apply_volume 50 [(1000 : Int), -1000]).get ⟨i, h2⟩ ≤ 32767) ∧
        ([(1000 : Int), -1000].get ⟨i, h1⟩ < 0 → 1 ≤ 50 →
          (apply_volume 50 [(1000 : Int), -1000]).get ⟨i, h2⟩ = 32767) ∧
        ([(1000 : Int), -1000].get ⟨i, h1⟩ < 0 → 50 = 0 →
          (apply_volume 50 [(1000 : Int), -1000]).get ⟨i, h2⟩ = 0)) :=
  c7_volume_scaling audioP [(1000 : Int), -1000] 50 (by decide) (by decide)

end WatchmanAVI
